import Mathlib

/-!
Verification of the chat-backend server (`src/server.js`).

The server's pure logic is embedded shallowly: JavaScript strings become Lean
`String`s (sequences of characters), JSON numbers become `Rat`, missing request
fields become `Option`, the Mongo collections become Lean lists, and each route
handler becomes a function from its inputs and the current store to a result
value plus the updated store.  External libraries (`bcryptjs`, `validator`,
`jsonwebtoken`) are abstracted as function parameters or small structures, since
their internals are not part of this repository.
-/

namespace ChatServer

/-- Model of JavaScript `String.prototype.toLowerCase` (per-character lowering). -/
def toLowerStr (s : String) : String :=
  ⟨s.data.map Char.toLower⟩

/-- Check that `p` is an initial segment of `l`. -/
def leadingMatch : List Char → List Char → Bool
  | [], _ => true
  | _ :: _, [] => false
  | a :: as, b :: bs => a == b && leadingMatch as bs

/-- Check that `needle` occurs contiguously somewhere in `haystack`. -/
def infixMatch (needle haystack : List Char) : Bool :=
  leadingMatch needle haystack ||
    match haystack with
    | [] => false
    | _ :: rest => infixMatch needle rest

/-- Model of JavaScript `String.prototype.includes`: `needle` occurs contiguously
in `haystack`. -/
def includesStr (haystack needle : String) : Bool :=
  infixMatch needle.data haystack.data

/-- Characters matched by the regex `[ঀ-৿]` (Bengali block) in
`detectLanguage`. -/
def isBengaliChar (c : Char) : Bool :=
  0x0980 ≤ c.toNat && c.toNat ≤ 0x09FF

/-- Characters matched by the regex `[؀-ۿ]` (Arabic block) in
`detectLanguage`. -/
def isArabicChar (c : Char) : Bool :=
  0x0600 ≤ c.toNat && c.toNat ≤ 0x06FF

/-- Characters matched by the regex `[一-鿿]` (CJK block) in
`detectLanguage`. -/
def isCjkChar (c : Char) : Bool :=
  0x4E00 ≤ c.toNat && c.toNat ≤ 0x9FFF

/-- Function `detectLanguage` from `src/server.js`: first matching script pattern wins,
checked in the order Bengali, Arabic, CJK; otherwise `"en"`. -/
def detectLanguage (text : String) : String :=
  if text.toList.any isBengaliChar then "bn"
  else if text.toList.any isArabicChar then "ar"
  else if text.toList.any isCjkChar then "zh"
  else "en"

/-- One entry of the `recommendations` arrays built by `generateAIResponse`.
The JavaScript objects carry different key sets per branch, so every key that
occurs anywhere is an optional field here. -/
structure Recommendation where
  name : String
  distance : Option String := none
  rating : Option Rat := none
  offer : Option String := none
  cuisine : Option String := none
  expires : Option String := none
deriving Repr, DecidableEq

/-- Return value of `generateAIResponse`. -/
structure AIResponse where
  content : String
  recommendations : List Recommendation
deriving Repr, DecidableEq

/-- Function `generateAIResponse` from `src/server.js`: ordered substring checks on the
lowercased message.  The `language` parameter is accepted (the handler passes
the detected language) but, as in the source, never used. -/
def generateAIResponse (message : String) (language : String) : AIResponse :=
  let lowerMessage := toLowerStr message
  if includesStr lowerMessage "cheesecake" || includesStr lowerMessage "dessert" then
    { content := "I found several great places for cheesecake near you! Here are the top recommendations:\n\n🍰 **Sweet Dreams Bakery** - 2.3 miles away\n- Fresh New York style cheesecake\n- Rating: 4.8/5\n- Special offer: 20% off today!\n\n🍰 **Cafe Delight** - 1.8 miles away\n- Artisanal cheesecakes\n- Rating: 4.6/5\n- Free delivery on orders over $25",
      recommendations := [
        { name := "Sweet Dreams Bakery", distance := some "2.3 miles", rating := some 4.8, offer := some "20% off today" },
        { name := "Cafe Delight", distance := some "1.8 miles", rating := some 4.6, offer := some "Free delivery over $25" }] }
  else if includesStr lowerMessage "deal" || includesStr lowerMessage "offer" || includesStr lowerMessage "discount" then
    { content := "Here are the best deals available right now:\n\n💰 **Flash Sale Alert!**\n- 50% off electronics at TechStore\n- Buy 2 get 1 free at Fashion Hub\n- Free shipping on orders over $50\n\n🔥 **Limited Time Offers:**\n- 30% off restaurant meals via FoodApp\n- 25% cashback on grocery shopping",
      recommendations := [
        { name := "TechStore", offer := some "50% off electronics", expires := some "24 hours" },
        { name := "Fashion Hub", offer := some "Buy 2 get 1 free", expires := some "48 hours" },
        { name := "FoodApp", offer := some "30% off meals", expires := some "This week" }] }
  else if includesStr lowerMessage "restaurant" || includesStr lowerMessage "food" || includesStr lowerMessage "eat" then
    { content := "I found some amazing restaurants near you:\n\n🍕 **Pizza Palace** - 1.2 miles\n- Authentic Italian pizza\n- Rating: 4.7/5\n- 15% off for new customers\n\n🍣 **Sushi Zen** - 2.1 miles\n- Fresh sushi and sashimi\n- Rating: 4.9/5\n- Happy hour: 3-6 PM daily",
      recommendations := [
        { name := "Pizza Palace", cuisine := some "Italian", distance := some "1.2 miles", rating := some 4.7 },
        { name := "Sushi Zen", cuisine := some "Japanese", distance := some "2.1 miles", rating := some 4.9 }] }
  else
    { content := "I'm here to help you find the best deals, recommendations, and local businesses! You can ask me about:\n\n• Finding nearby restaurants, shops, or services\n• Getting the latest deals and offers\n• Personalized recommendations based on your preferences\n• Local business information and reviews\n\nWhat would you like to explore today?",
      recommendations := [] }

/-- Whitespace characters removed by JavaScript `String.prototype.trim`
(restricted to the common ASCII ones). -/
def isJsSpace (c : Char) : Bool :=
  c == ' ' || c == '\t' || c == '\n' || c == '\r' || c == '\x0b' || c == '\x0c'

/-- Model of JavaScript `String.prototype.trim`. -/
def trimStr (s : String) : String :=
  ⟨((s.data.dropWhile isJsSpace).reverse.dropWhile isJsSpace).reverse⟩

/-- One element of a chat's `messages` array (the embedded message schema). -/
structure Message where
  role : String
  content : String
  language : String
  timestamp : Nat
deriving Repr, DecidableEq

/-- One document of the `Chat` collection.  Mongo `ObjectId`s are modelled as
`Nat`; `Date`s as `Nat` instants. -/
structure Chat where
  id : Nat
  userId : Nat
  title : String
  messages : List Message
  createdAt : Nat
  updatedAt : Nat
deriving Repr, DecidableEq

/-- Model of `Chat.findOne` on the pair (chatId, userId): the lookup every chat route
performs, filtering by both the chat id and the owning user id. -/
def findChat (uid cid : Nat) (chats : List Chat) : Option Chat :=
  chats.find? (fun c => c.id == cid && c.userId == uid)

/-- Model of `chat.save()` on a fetched document: the store keeps every other document
and the document with this id is replaced by the mutated one. -/
def replaceChat (c' : Chat) (chats : List Chat) : List Chat :=
  chats.map (fun c => if c.id == c'.id then c' else c)

/-- Route `POST /api/chats`: insert an empty chat owned by the caller. -/
def createChat (uid newId now : Nat) (chats : List Chat) : Chat × List Chat :=
  let c : Chat :=
    { id := newId, userId := uid, title := "New Chat", messages := [],
      createdAt := now, updatedAt := now }
  (c, chats ++ [c])

/-- Responses of `GET /api/chats/:chatId`. -/
inductive GetChatResult where
  | notFound
  | found (chat : Chat)
deriving Repr, DecidableEq

/-- Route `GET /api/chats/:chatId`: 404 unless the chat exists and is owned by the
caller. -/
def getChat (uid cid : Nat) (chats : List Chat) : GetChatResult :=
  match findChat uid cid chats with
  | none => .notFound
  | some c => .found c

/-- Title derived from the first user message:
`message.substring(0, 50) + (message.length > 50 ? ... : ...)`. -/
def deriveTitle (message : String) : String :=
  ⟨message.data.take 50⟩ ++ (if 50 < message.data.length then "..." else "")

/-- The user message pushed by the message route. -/
def userMessageOf (m : String) (now : Nat) : Message :=
  { role := "user", content := trimStr m, language := detectLanguage m,
    timestamp := now }

/-- The assistant message pushed by the message route. -/
def assistantMessageOf (m : String) (now : Nat) : Message :=
  { role := "assistant", content := (generateAIResponse m (detectLanguage m)).content,
    language := detectLanguage m, timestamp := now }

/-- Responses of `POST /api/chats/:chatId/messages`. -/
inductive MessageResult where
  | badRequest (error : String)
  | notFound (error : String)
  | ok (userMessage assistantMessage : Message) (recommendations : List Recommendation)
deriving Repr, DecidableEq

/-- Route `POST /api/chats/:chatId/messages`: reject a missing/blank message, look the
chat up by (id, owner), append the user and assistant messages, set the title
from the original message when the list has just reached length 2, and save. -/
def postMessage (now uid cid : Nat) (message : Option String) (chats : List Chat) :
    MessageResult × List Chat :=
  match message with
  | none => (.badRequest "Message is required", chats)
  | some m =>
    if m == "" || trimStr m == "" then (.badRequest "Message is required", chats)
    else
      match findChat uid cid chats with
      | none => (.notFound "Chat not found", chats)
      | some chat =>
        let userMessage := userMessageOf m now
        let assistantMessage := assistantMessageOf m now
        let messages := chat.messages ++ [userMessage, assistantMessage]
        let title := if messages.length == 2 then deriveTitle m else chat.title
        let chat' := { chat with messages := messages, title := title, updatedAt := now }
        (.ok userMessage assistantMessage
          (generateAIResponse m (detectLanguage m)).recommendations,
         replaceChat chat' chats)

/-- Responses of `PUT /api/chats/:chatId/title`. -/
inductive TitleResult where
  | badRequest (error : String)
  | notFound (error : String)
  | ok (chat : Chat)
deriving Repr, DecidableEq

/-- Route `PUT /api/chats/:chatId/title`: reject a missing/blank title, then
`findOneAndUpdate` filtered by (id, owner) with the trimmed title. -/
def updateChatTitle (now uid cid : Nat) (title : Option String) (chats : List Chat) :
    TitleResult × List Chat :=
  match title with
  | none => (.badRequest "Title is required", chats)
  | some t =>
    if t == "" || trimStr t == "" then (.badRequest "Title is required", chats)
    else
      match findChat uid cid chats with
      | none => (.notFound "Chat not found", chats)
      | some chat =>
        let chat' := { chat with title := trimStr t, updatedAt := now }
        (.ok chat', replaceChat chat' chats)

/-- Responses of `DELETE /api/chats/:chatId`. -/
inductive DeleteResult where
  | notFound (error : String)
  | ok (message : String)
deriving Repr, DecidableEq

/-- Route `DELETE /api/chats/:chatId`: `findOneAndDelete` filtered by (id, owner). -/
def deleteChat (uid cid : Nat) (chats : List Chat) : DeleteResult × List Chat :=
  match findChat uid cid chats with
  | none => (.notFound "Chat not found", chats)
  | some _ =>
    (.ok "Chat deleted successfully",
     chats.eraseP (fun c => c.id == cid && c.userId == uid))

/-- Messages come in consecutive user/assistant pairs whose two members carry
the same language tag; this also forces even length and alternation starting
with a user message. -/
def pairedMessages : List Message → Bool
  | [] => true
  | [_] => false
  | u :: a :: rest =>
    u.role == "user" && a.role == "assistant" && u.language == a.language &&
      pairedMessages rest

/-- Stores reachable from the empty store through the public chat operations:
create chat, post message, update title. -/
inductive Reachable : List Chat → Prop where
  | empty : Reachable []
  | create (uid newId now : Nat) {s : List Chat} :
      Reachable s → Reachable (createChat uid newId now s).2
  | message (now uid cid : Nat) (m : Option String) {s : List Chat} :
      Reachable s → Reachable (postMessage now uid cid m s).2
  | retitle (now uid cid : Nat) (t : Option String) {s : List Chat} :
      Reachable s → Reachable (updateChatTitle now uid cid t s).2

/-- JSON values: the shape of every response body the server sends. -/
inductive Json where
  | str (s : String)
  | num (q : Rat)
  | jnull
  | arr (elems : List Json)
  | obj (fields : List (String × Json))
deriving Repr

/-- Whether a key occurs, at any nesting depth, in a JSON value. -/
def Json.hasKey (key : String) : Json → Bool
  | .obj [] => false
  | .obj ((k, v) :: rest) => k == key || v.hasKey key || (Json.obj rest).hasKey key
  | .arr [] => false
  | .arr (x :: rest) => x.hasKey key || (Json.arr rest).hasKey key
  | _ => false

/-- The `location` sub-document of a user. -/
structure Location where
  latitude : Rat
  longitude : Rat
  address : String
  lastUpdated : Nat
deriving Repr, DecidableEq

/-- One document of the `User` collection. -/
structure StoredUser where
  id : Nat
  name : String
  email : String
  password : String
  preferredLanguage : String
  location : Option Location
  createdAt : Nat
deriving Repr, DecidableEq

/-- Modelled view of the external `jsonwebtoken` library: signing produces a
credential carrying the embedded user id, the signing secret and the configured
expiry. -/
structure Token where
  userId : Nat
  secret : String
  expiresIn : String
deriving Repr, DecidableEq

/-- Both auth routes sign with expiry `7d` and payload `userId`. -/
def jwtSign (uid : Nat) (secret : String) : Token :=
  ⟨uid, secret, "7d"⟩

/-- JavaScript truthiness of a possibly-missing string field: false exactly for
a missing field and for the empty string. -/
def truthyStr : Option String → Bool
  | none => false
  | some s => !(s == "")

/-- Request body of `POST /api/auth/register`. -/
structure RegisterBody where
  name : Option String
  email : Option String
  password : Option String
deriving Repr, DecidableEq

/-- Responses of `POST /api/auth/register`. -/
inductive RegisterResult where
  | badRequest (error : String)
  | created (token : Token) (user : StoredUser)
deriving Repr, DecidableEq

/-- Whether a registration outcome is the 400 response. -/
def RegisterResult.isBadRequest : RegisterResult → Bool
  | .badRequest _ => true
  | .created _ _ => false

/-- Route `POST /api/auth/register`.  The email-format check (`validator.isEmail`)
and the bcrypt salting/hashing are external libraries, passed in as the
parameters `isEmail` and `bhash`/`salt`. -/
def register (isEmail : String → Bool) (bhash : String → String → String)
    (salt secret : String) (newId now : Nat)
    (users : List StoredUser) (b : RegisterBody) : RegisterResult × List StoredUser :=
  match b.name, b.email, b.password with
  | some name, some email, some password =>
    if name == "" || email == "" || password == "" then
      (.badRequest "Please provide all required fields", users)
    else if !(isEmail email) then
      (.badRequest "Please provide a valid email", users)
    else if password.length < 6 then
      (.badRequest "Password must be at least 6 characters", users)
    else if users.any (fun u => u.email == email) then
      (.badRequest "User already exists", users)
    else
      let hashedPassword := bhash salt password
      let user : StoredUser :=
        { id := newId, name := name, email := email, password := hashedPassword,
          preferredLanguage := "en", location := none, createdAt := now }
      (.created (jwtSign newId secret) user, users ++ [user])
  | _, _, _ => (.badRequest "Please provide all required fields", users)

/-- Responses of `POST /api/auth/login`. -/
inductive LoginResult where
  | badRequest (error : String)
  | ok (token : Token) (user : StoredUser)
deriving Repr, DecidableEq

/-- Route `POST /api/auth/login`; the bcrypt comparison is external, the parameter
`bcompare`. -/
def login (bcompare : String → String → Bool) (secret : String)
    (users : List StoredUser) (email password : Option String) : LoginResult :=
  match email, password with
  | some e, some p =>
    if e == "" || p == "" then .badRequest "Please provide email and password"
    else
      match users.find? (fun u => u.email == e) with
      | none => .badRequest "Invalid credentials"
      | some user =>
        if !(bcompare p user.password) then .badRequest "Invalid credentials"
        else .ok (jwtSign user.id secret) user
  | _, _ => .badRequest "Please provide email and password"

/-- The public user object embedded in register/login success bodies. -/
def publicUserJson (u : StoredUser) : Json :=
  .obj [("id", .str (toString u.id)), ("name", .str u.name),
        ("email", .str u.email), ("preferredLanguage", .str u.preferredLanguage)]

/-- Body of every register response; `signedString` renders the opaque signed
token. -/
def registerResponseJson (signedString : Token → String) : RegisterResult → Json
  | .badRequest e => .obj [("error", .str e)]
  | .created t u => .obj [("token", .str (signedString t)), ("user", publicUserJson u)]

/-- Body of every login response. -/
def loginResponseJson (signedString : Token → String) : LoginResult → Json
  | .badRequest e => .obj [("error", .str e)]
  | .ok t u => .obj [("token", .str (signedString t)), ("user", publicUserJson u)]

/-- JSON rendering of the optional location sub-document. -/
def locationJson : Option Location → Json
  | none => .jnull
  | some l =>
    .obj [("latitude", .num l.latitude), ("longitude", .num l.longitude),
          ("address", .str l.address), ("lastUpdated", .num (l.lastUpdated : Rat))]

/-- Body of the `GET /api/user/profile` success response (the explicitly rebuilt public
fields). -/
def profileGetJson (u : StoredUser) : Json :=
  .obj [("id", .str (toString u.id)), ("name", .str u.name), ("email", .str u.email),
        ("preferredLanguage", .str u.preferredLanguage),
        ("location", locationJson u.location), ("createdAt", .num (u.createdAt : Rat))]

/-- Body of the `PUT /api/user/profile` success response: the updated document with the
password path excluded by the projection. -/
def profilePutJson (u : StoredUser) : Json :=
  .obj [("id", .str (toString u.id)), ("name", .str u.name), ("email", .str u.email),
        ("preferredLanguage", .str u.preferredLanguage),
        ("location", locationJson u.location), ("createdAt", .num (u.createdAt : Rat))]

/-- 401 body when the Authorization header is missing. -/
def authDeniedJson : Json := .obj [("error", .str "Access denied")]

/-- 401 body when the token is invalid, expired, or its user is gone. -/
def authInvalidJson : Json := .obj [("error", .str "Token is not valid")]

/-- Request body of `POST /api/user/location`. -/
structure LocationBody where
  latitude : Option Rat
  longitude : Option Rat
  address : Option String
deriving Repr, DecidableEq

/-- Responses of `POST /api/user/location`. -/
inductive LocationResult where
  | badRequest (error : String)
  | ok (location : Location)
deriving Repr, DecidableEq

/-- Route `POST /api/user/location`: the JavaScript guard `!latitude || !longitude`
rejects missing coordinates and the falsy number 0; on success the caller's
location is replaced, the address defaulting to the rendered coordinates joined
by a comma when absent or empty.  `render` abstracts the host language's
number-to-string conversion used by the template literal. -/
def setLocation (render : Rat → String) (now uid : Nat) (b : LocationBody)
    (users : List StoredUser) : LocationResult × List StoredUser :=
  match b.latitude, b.longitude with
  | some la, some lo =>
    if la == 0 || lo == 0 then
      (.badRequest "Latitude and longitude are required", users)
    else
      let address :=
        match b.address with
        | some a => if a == "" then render la ++ ", " ++ render lo else a
        | none => render la ++ ", " ++ render lo
      let loc : Location := ⟨la, lo, address, now⟩
      (.ok loc,
       users.map (fun u => if u.id == uid then { u with location := some loc } else u))
  | _, _ => (.badRequest "Latitude and longitude are required", users)

/-- C4: language detection returns `"bn"` when the text has a Bengali-block
character, else `"ar"` when it has an Arabic-block character, else `"zh"` when
it has a CJK character, else `"en"`, patterns checked in that fixed order with
the first match winning; in particular it maps `"آسف"` to `"ar"`, `"你好"` to
`"zh"`, `"আমি"` to `"bn"`, and `"hello"` to `"en"`. -/
theorem claim_C4 :
    (∀ t : String, t.toList.any isBengaliChar = true → detectLanguage t = "bn") ∧
    (∀ t : String, t.toList.any isBengaliChar = false →
      t.toList.any isArabicChar = true → detectLanguage t = "ar") ∧
    (∀ t : String, t.toList.any isBengaliChar = false →
      t.toList.any isArabicChar = false →
      t.toList.any isCjkChar = true → detectLanguage t = "zh") ∧
    (∀ t : String, t.toList.any isBengaliChar = false →
      t.toList.any isArabicChar = false →
      t.toList.any isCjkChar = false → detectLanguage t = "en") ∧
    detectLanguage "آسف" = "ar" ∧ detectLanguage "你好" = "zh" ∧
    detectLanguage "আমি" = "bn" ∧ detectLanguage "hello" = "en" := by
  refine ⟨fun t h => ?_, fun t h1 h2 => ?_, fun t h1 h2 h3 => ?_,
    fun t h1 h2 h3 => ?_, ?_, ?_, ?_, ?_⟩
  · simp only [detectLanguage, h]; rfl
  · simp only [detectLanguage, h1, h2]; rfl
  · simp only [detectLanguage, h1, h2, h3]; rfl
  · simp only [detectLanguage, h1, h2, h3]; rfl
  all_goals decide

/-- Witness for C4 at concrete inputs. -/
theorem claim_C4_witness : detectLanguage "hello" = "en" :=
  claim_C4.2.2.2.1 "hello" (by decide) (by decide) (by decide)

/-- C5: on the message `"I want cheesecake"` the response generator answers with
content containing `"Sweet Dreams Bakery"` and exactly two recommendations. -/
theorem claim_C5 :
    includesStr (generateAIResponse "I want cheesecake" "en").content
      "Sweet Dreams Bakery" = true ∧
    (generateAIResponse "I want cheesecake" "en").recommendations.length = 2 := by
  constructor <;> rfl

/-- C9: the response generator ignores its language parameter, and its output is
determined solely by the lowercased message text. -/
theorem claim_C9 :
    (∀ m l1 l2 : String, generateAIResponse m l1 = generateAIResponse m l2) ∧
    (∀ m1 m2 l : String, toLowerStr m1 = toLowerStr m2 →
      generateAIResponse m1 l = generateAIResponse m2 l) := by
  refine ⟨fun m l1 l2 => rfl, fun m1 m2 l h => ?_⟩
  simp only [generateAIResponse, h]

/-- Witness for C9: two messages differing only in case, and two distinct
language tags, give identical generator output. -/
theorem claim_C9_witness :
    generateAIResponse "Hi" "en" = generateAIResponse "hI" "bn" :=
  (claim_C9.2 "Hi" "hI" "en" (by decide)).trans (claim_C9.1 "hI" "en" "bn")

/-- A chat found by `findChat` satisfies the filter: it has the requested id and
is owned by the requesting user. -/
theorem findChat_filter {uid cid : Nat} {chats : List Chat} {c : Chat}
    (h : findChat uid cid chats = some c) : c.id = cid ∧ c.userId = uid := by
  have hp := List.find?_some h
  simp only [Bool.and_eq_true, beq_iff_eq] at hp
  exact hp

/-- A chat found by `findChat` is in the store. -/
theorem findChat_mem {uid cid : Nat} {chats : List Chat} {c : Chat}
    (h : findChat uid cid chats = some c) : c ∈ chats :=
  List.mem_of_find?_eq_some h

/-- With distinct ids, looking up a stored chat by its id and owner finds
exactly that chat. -/
theorem findChat_eq_some_of_mem {uid : Nat} {c : Chat} {chats : List Chat}
    (hnd : (chats.map Chat.id).Nodup) (hc : c ∈ chats) (hu : c.userId = uid) :
    findChat uid c.id chats = some c := by
  induction chats with
  | nil => cases hc
  | cons a rest ih =>
    simp only [List.map_cons, List.nodup_cons] at hnd
    rcases List.mem_cons.mp hc with rfl | hmem
    · simp [findChat, List.find?, hu]
    · have hne : a.id ≠ c.id := fun h => hnd.1 (h ▸ List.mem_map_of_mem Chat.id hmem)
      simp only [findChat, List.find?]
      rw [show (a.id == c.id && a.userId == uid) = false by
        simp [hne]]
      exact ih hnd.2 hmem

/-- With distinct ids, looking up a chat owned by somebody else finds
nothing. -/
theorem findChat_eq_none_of_other_owner {uid : Nat} {c : Chat} {chats : List Chat}
    (hnd : (chats.map Chat.id).Nodup) (hc : c ∈ chats) (hu : c.userId ≠ uid) :
    findChat uid c.id chats = none := by
  refine List.find?_eq_none.mpr (fun a ha hpa => ?_)
  simp only [Bool.and_eq_true, beq_iff_eq] at hpa
  have : a = c := List.inj_on_of_nodup_map hnd ha hc hpa.1
  exact hu (this ▸ hpa.2)

/-- Replacing a document by id does not change the stored id list. -/
theorem replaceChat_map_id (c' : Chat) (chats : List Chat) :
    (replaceChat c' chats).map Chat.id = chats.map Chat.id := by
  induction chats with
  | nil => rfl
  | cons a rest ih =>
    simp only [replaceChat, List.map_cons] at ih ⊢
    rw [ih]
    by_cases h : (a.id == c'.id) = true
    · rw [if_pos h]
      simp only [beq_iff_eq] at h
      rw [h]
    · rw [if_neg h]

/-- Every member of the store after a replace is the new document or an old
one. -/
theorem mem_replaceChat {c' x : Chat} {chats : List Chat}
    (hx : x ∈ replaceChat c' chats) : x = c' ∨ x ∈ chats := by
  simp only [replaceChat, List.mem_map] at hx
  rcases hx with ⟨y, hy, hxy⟩
  by_cases h : (y.id == c'.id) = true
  · left; rw [← hxy, if_pos h]
  · right; rw [← hxy, if_neg h]; exact hy

/-- With distinct ids, replacing a stored chat by a mutation of itself makes the
ownership-filtered lookup return the mutated chat. -/
theorem findChat_replaceChat {uid : Nat} {c c' : Chat} {chats : List Chat}
    (hnd : (chats.map Chat.id).Nodup) (hc : c ∈ chats)
    (hid : c'.id = c.id) (hu : c'.userId = uid) :
    findChat uid c.id (replaceChat c' chats) = some c' := by
  induction chats with
  | nil => cases hc
  | cons a rest ih =>
    simp only [List.map_cons, List.nodup_cons] at hnd
    rcases List.mem_cons.mp hc with rfl | hmem
    · simp [replaceChat, findChat, List.find?_cons, hid, hu]
    · have hne : a.id ≠ c.id := fun h => hnd.1 (h ▸ List.mem_map_of_mem Chat.id hmem)
      have h1 : (a.id == c'.id) = false := by simp [hid]; exact hne
      have h2 : (a.id == c.id && a.userId == uid) = false := by simp [hne]
      simp only [replaceChat, List.map_cons, h1, Bool.false_eq_true, if_false,
        findChat, List.find?_cons, h2] at ih ⊢
      exact ih hnd.2 hmem

/-- The trimmed string of the empty string is empty, so a string with non-empty
trim is itself non-empty. -/
theorem ne_empty_of_trim_ne_empty {m : String} (hm : trimStr m ≠ "") : m ≠ "" := by
  intro h
  exact hm (by rw [h]; rfl)

/-- Behaviour of the message route on a stored chat owned by the caller: the
saved document has the two messages appended, the title derived exactly when
the list has just reached length 2, and the timestamp refreshed. -/
theorem postMessage_found_spec (now uid : Nat) (c : Chat) (chats : List Chat) (m : String)
    (hnd : (chats.map Chat.id).Nodup) (hc : c ∈ chats) (hu : c.userId = uid)
    (hm : trimStr m ≠ "") :
    findChat uid c.id (postMessage now uid c.id (some m) chats).2 =
      some { c with
        messages := c.messages ++ [userMessageOf m now, assistantMessageOf m now],
        title := if c.messages.length + 2 = 2 then deriveTitle m else c.title,
        updatedAt := now } := by
  have hfind := findChat_eq_some_of_mem hnd hc hu
  have hcond : (m == "" || trimStr m == "") = false := by
    simp [ne_empty_of_trim_ne_empty hm, hm]
  simp only [postMessage, hcond, Bool.false_eq_true, if_false, hfind]
  have hlen : (c.messages ++ [userMessageOf m now, assistantMessageOf m now]).length =
      c.messages.length + 2 := by simp
  rw [hlen]
  have : ((c.messages.length + 2 == 2) = true) ↔ (c.messages.length + 2 = 2) := by
    simp
  by_cases h2 : c.messages.length + 2 = 2
  · rw [if_pos (by simpa using h2), if_pos h2]
    exact findChat_replaceChat hnd hc rfl hu
  · rw [if_neg (by simpa using h2), if_neg h2]
    exact findChat_replaceChat hnd hc rfl hu

/-- C1: for every authenticated user and every chat owned by somebody else, the
get-chat, update-title, delete-chat (and message) operations return NotFound
and leave the store unchanged, and get-chat never returns a chat owned by a
different user. -/
theorem claim_C1 (now uid : Nat) (c : Chat) (chats : List Chat) (title message : String)
    (hnd : (chats.map Chat.id).Nodup) (hc : c ∈ chats) (hu : c.userId ≠ uid) :
    getChat uid c.id chats = .notFound ∧
    (updateChatTitle now uid c.id (some title) chats).2 = chats ∧
    (trimStr title ≠ "" →
      (updateChatTitle now uid c.id (some title) chats).1 = .notFound "Chat not found") ∧
    deleteChat uid c.id chats = (.notFound "Chat not found", chats) ∧
    (postMessage now uid c.id (some message) chats).2 = chats ∧
    (trimStr message ≠ "" →
      (postMessage now uid c.id (some message) chats).1 = .notFound "Chat not found") ∧
    (∀ cid c', getChat uid cid chats = .found c' → c'.userId = uid) := by
  have hnone := findChat_eq_none_of_other_owner hnd hc hu
  refine ⟨?_, ?_, ?_, ?_, ?_, ?_, ?_⟩
  · simp [getChat, hnone]
  · by_cases hcond : (title == "" || trimStr title == "") = true
    · simp [updateChatTitle, hcond]
    · rw [Bool.not_eq_true] at hcond
      simp [updateChatTitle, hcond, hnone]
  · intro ht
    have hcond : (title == "" || trimStr title == "") = false := by
      simp [ne_empty_of_trim_ne_empty ht, ht]
    simp [updateChatTitle, hcond, hnone]
  · simp [deleteChat, hnone]
  · by_cases hcond : (message == "" || trimStr message == "") = true
    · simp [postMessage, hcond]
    · rw [Bool.not_eq_true] at hcond
      simp [postMessage, hcond, hnone]
  · intro hm
    have hcond : (message == "" || trimStr message == "") = false := by
      simp [ne_empty_of_trim_ne_empty hm, hm]
    simp [postMessage, hcond, hnone]
  · intro cid c' h
    cases hfind : findChat uid cid chats with
    | none => simp [getChat, hfind] at h
    | some x =>
      simp only [getChat, hfind, GetChatResult.found.injEq] at h
      exact h ▸ (findChat_filter hfind).2

/-- Witness for C1: user 5 looking up a chat owned by user 7 gets NotFound. -/
theorem claim_C1_witness :
    getChat 5 1 [⟨1, 7, "t", [], 0, 0⟩] = .notFound :=
  (claim_C1 0 5 ⟨1, 7, "t", [], 0, 0⟩ [⟨1, 7, "t", [], 0, 0⟩]
    "x" "y" (by decide) (by decide) (by decide)).1

/-- C3: after an accepted message on an owned chat, if the message list has just
reached length 2 the saved title is the first 50 characters of the message with
an ellipsis exactly when it exceeds 50 characters, and on any later exchange
the title is unchanged. -/
theorem claim_C3 (now uid : Nat) (c : Chat) (chats : List Chat) (m : String)
    (hnd : (chats.map Chat.id).Nodup) (hc : c ∈ chats) (hu : c.userId = uid)
    (hm : trimStr m ≠ "") :
    (c.messages.length + 2 = 2 →
      findChat uid c.id (postMessage now uid c.id (some m) chats).2 =
        some { c with
          messages := c.messages ++ [userMessageOf m now, assistantMessageOf m now],
          title := ⟨m.data.take 50⟩ ++ (if 50 < m.data.length then "..." else ""),
          updatedAt := now }) ∧
    (2 < c.messages.length + 2 →
      findChat uid c.id (postMessage now uid c.id (some m) chats).2 =
        some { c with
          messages := c.messages ++ [userMessageOf m now, assistantMessageOf m now],
          updatedAt := now }) := by
  have h := postMessage_found_spec now uid c chats m hnd hc hu hm
  constructor
  · intro h2
    rw [h, if_pos h2]
    rfl
  · intro h2
    rw [h, if_neg (by omega)]

/-- Witness for C3: the first exchange on an empty chat sets the title to the
message. -/
theorem claim_C3_witness :
    (findChat 7 1 (postMessage 5 7 1 (some "hello")
      [⟨1, 7, "New Chat", [], 0, 0⟩]).2).map Chat.title = some "hello" := by
  rw [(claim_C3 5 7 ⟨1, 7, "New Chat", [], 0, 0⟩ [⟨1, 7, "New Chat", [], 0, 0⟩]
    "hello" (by decide) (by decide) rfl (by decide)).1 rfl]
  rfl

/-- C10: on a chat with no messages whose title was changed through the title
route, the first message exchange still overwrites the custom title with the
derived one (the trigger is the message count, not the default title). -/
theorem claim_C10 (now1 now2 uid : Nat) (c : Chat) (chats : List Chat) (t m : String)
    (hnd : (chats.map Chat.id).Nodup) (hc : c ∈ chats) (hu : c.userId = uid)
    (hempty : c.messages = []) (ht : trimStr t ≠ "") (hm : trimStr m ≠ "") :
    findChat uid c.id (updateChatTitle now1 uid c.id (some t) chats).2 =
      some { c with title := trimStr t, updatedAt := now1 } ∧
    findChat uid c.id
      (postMessage now2 uid c.id (some m) (updateChatTitle now1 uid c.id (some t) chats).2).2 =
      some { c with
        title := deriveTitle m,
        messages := [userMessageOf m now2, assistantMessageOf m now2],
        updatedAt := now2 } := by
  have hcondt : (t == "" || trimStr t == "") = false := by
    simp [ne_empty_of_trim_ne_empty ht, ht]
  have hfind := findChat_eq_some_of_mem hnd hc hu
  have hstep1 : (updateChatTitle now1 uid c.id (some t) chats).2 =
      replaceChat { c with title := trimStr t, updatedAt := now1 } chats := by
    simp [updateChatTitle, hcondt, hfind]
  have hfind1 : findChat uid c.id (updateChatTitle now1 uid c.id (some t) chats).2 =
      some { c with title := trimStr t, updatedAt := now1 } := by
    rw [hstep1]; exact findChat_replaceChat hnd hc rfl hu
  refine ⟨hfind1, ?_⟩
  have hnd1 : (((updateChatTitle now1 uid c.id (some t) chats).2).map Chat.id).Nodup := by
    rw [hstep1, replaceChat_map_id]; exact hnd
  have hmem1 : ({ c with title := trimStr t, updatedAt := now1 } : Chat) ∈
      (updateChatTitle now1 uid c.id (some t) chats).2 := findChat_mem hfind1
  have h2 := postMessage_found_spec now2 uid { c with title := trimStr t, updatedAt := now1 }
    (updateChatTitle now1 uid c.id (some t) chats).2 m hnd1 hmem1 hu hm
  rw [show ({ c with title := trimStr t, updatedAt := now1 } : Chat).id = c.id from rfl] at h2
  rw [h2]
  have hms : ({ c with title := trimStr t, updatedAt := now1 } : Chat).messages = [] := hempty
  rw [hms]
  simp

/-- Witness for C10: retitling an empty chat to "Custom" and then sending
"hello" leaves the title "hello", not "Custom". -/
theorem claim_C10_witness :
    (findChat 7 1 (postMessage 5 7 1 (some "hello")
        (updateChatTitle 3 7 1 (some "Custom")
          [⟨1, 7, "New Chat", [], 0, 0⟩]).2).2).map Chat.title = some "hello" := by
  rw [(claim_C10 3 5 7 ⟨1, 7, "New Chat", [], 0, 0⟩ [⟨1, 7, "New Chat", [], 0, 0⟩]
    "Custom" "hello" (by decide) (by decide) rfl rfl (by decide) (by decide)).2]
  rfl

/-- Appending a user/assistant pair with a shared language preserves the pair
structure. -/
theorem pairedMessages_append (u a : Message) (hu : u.role = "user")
    (ha : a.role = "assistant") (hl : u.language = a.language) :
    ∀ ms : List Message, pairedMessages ms = true →
      pairedMessages (ms ++ [u, a]) = true
  | [], _ => by simp [pairedMessages, hu, ha, hl]
  | [_], h => by simp [pairedMessages] at h
  | x :: y :: rest, h => by
    simp only [pairedMessages, Bool.and_eq_true] at h
    simp only [List.cons_append, pairedMessages, Bool.and_eq_true]
    exact ⟨h.1, pairedMessages_append u a hu ha hl rest h.2⟩

/-- Paired message lists have even length. -/
theorem pairedMessages_length :
    ∀ ms : List Message, pairedMessages ms = true → ms.length % 2 = 0
  | [], _ => rfl
  | [_], h => by simp [pairedMessages] at h
  | _ :: _ :: rest, h => by
    simp only [pairedMessages, Bool.and_eq_true] at h
    have := pairedMessages_length rest h.2
    simp only [List.length_cons]
    omega

/-- Every chat in a reachable store has correctly paired messages. -/
theorem reachable_paired {s : List Chat} (hr : Reachable s) :
    ∀ c ∈ s, pairedMessages c.messages = true := by
  induction hr with
  | empty => intro c hc; cases hc
  | create uid newId now _ ih =>
    intro c hc
    simp only [createChat] at hc
    rcases List.mem_append.mp hc with h | h
    · exact ih c h
    · rw [List.mem_singleton.mp h]; rfl
  | message now uid cid m _ ih =>
    intro c hc
    match m with
    | none => exact ih c hc
    | some mm =>
      simp only [postMessage] at hc
      by_cases hcond : (mm == "" || trimStr mm == "") = true
      · rw [if_pos hcond] at hc; exact ih c hc
      · rw [if_neg hcond] at hc
        cases hfind : findChat uid cid _ with
        | none => rw [hfind] at hc; exact ih c hc
        | some chat =>
          rw [hfind] at hc
          simp only at hc
          rcases mem_replaceChat hc with rfl | hmem
          · exact pairedMessages_append (userMessageOf mm now) (assistantMessageOf mm now)
              rfl rfl rfl chat.messages (ih chat (findChat_mem hfind))
          · exact ih c hmem
  | retitle now uid cid t _ ih =>
    intro c hc
    match t with
    | none => exact ih c hc
    | some tt =>
      simp only [updateChatTitle] at hc
      by_cases hcond : (tt == "" || trimStr tt == "") = true
      · rw [if_pos hcond] at hc; exact ih c hc
      · rw [if_neg hcond] at hc
        cases hfind : findChat uid cid _ with
        | none => rw [hfind] at hc; exact ih c hc
        | some chat =>
          rw [hfind] at hc
          simp only at hc
          rcases mem_replaceChat hc with rfl | hmem
          · exact ih chat (findChat_mem hfind)
          · exact ih c hmem

/-- C8: in every store reachable through the public chat operations, every
chat's message list consists of user/assistant pairs with matching language
tags and, in particular, has even length. -/
theorem claim_C8 {s : List Chat} (hr : Reachable s) :
    ∀ c ∈ s, pairedMessages c.messages = true ∧ c.messages.length % 2 = 0 :=
  fun c hc =>
    ⟨reachable_paired hr c hc,
     pairedMessages_length c.messages (reachable_paired hr c hc)⟩

/-- Witness for C8 on the store reached by a single chat creation. -/
theorem claim_C8_witness :
    pairedMessages (Chat.messages ⟨10, 1, "New Chat", [], 0, 0⟩) = true :=
  (claim_C8 (Reachable.create 1 10 0 Reachable.empty)
    ⟨10, 1, "New Chat", [], 0, 0⟩ (by decide)).1

/-- Every register response body is free of any (nested) password key. -/
theorem registerResponseJson_no_password (signedString : Token → String)
    (r : RegisterResult) :
    Json.hasKey "password" (registerResponseJson signedString r) = false := by
  cases r <;> simp [registerResponseJson, publicUserJson, Json.hasKey]

/-- Every login response body is free of any (nested) password key. -/
theorem loginResponseJson_no_password (signedString : Token → String)
    (r : LoginResult) :
    Json.hasKey "password" (loginResponseJson signedString r) = false := by
  cases r <;> simp [loginResponseJson, publicUserJson, Json.hasKey]

/-- The location sub-object is free of any password key. -/
theorem locationJson_no_password (l : Option Location) :
    Json.hasKey "password" (locationJson l) = false := by
  cases l <;> simp [locationJson, Json.hasKey]

/-- C2: no response body of register, login, profile get/update, or the auth
gate contains a `password` field at any depth, and every successful
registration stores the salted hash of the submitted password — a value
different from the plaintext whenever the hash function has no fixed point. -/
theorem claim_C2 (isEmail : String → Bool) (bhash : String → String → String)
    (bcompare : String → String → Bool) (signedString : Token → String)
    (salt secret : String) (newId now : Nat)
    (users : List StoredUser) (b : RegisterBody) (le lp : Option String)
    (hbh : ∀ s p, bhash s p ≠ p) :
    Json.hasKey "password" (registerResponseJson signedString
      (register isEmail bhash salt secret newId now users b).1) = false ∧
    Json.hasKey "password" (loginResponseJson signedString
      (login bcompare secret users le lp)) = false ∧
    (∀ u : StoredUser, Json.hasKey "password" (profileGetJson u) = false) ∧
    (∀ u : StoredUser, Json.hasKey "password" (profilePutJson u) = false) ∧
    Json.hasKey "password" authDeniedJson = false ∧
    Json.hasKey "password" authInvalidJson = false ∧
    (∀ t u users',
      register isEmail bhash salt secret newId now users b = (.created t u, users') →
      ∃ p, b.password = some p ∧ u.password = bhash salt p ∧ u.password ≠ p) := by
  refine ⟨registerResponseJson_no_password _ _, loginResponseJson_no_password _ _,
    fun u => ?_, fun u => ?_, by simp [authDeniedJson, Json.hasKey],
    by simp [authInvalidJson, Json.hasKey], ?_⟩
  · simp [profileGetJson, Json.hasKey, locationJson_no_password u.location]
  · simp [profilePutJson, Json.hasKey, locationJson_no_password u.location]
  · intro t u users' h
    rcases b with ⟨bn, be, bp⟩
    cases bn with
    | none => simp [register] at h
    | some name =>
      cases be with
      | none => simp [register] at h
      | some email =>
        cases bp with
        | none => simp [register] at h
        | some password =>
          simp only [register] at h
          split at h
          · simp at h
          · split at h
            · simp at h
            · split at h
              · simp at h
              · split at h
                · simp at h
                · simp only [Prod.mk.injEq, RegisterResult.created.injEq] at h
                  obtain ⟨⟨_, hu⟩, _⟩ := h
                  subst hu
                  exact ⟨password, rfl, rfl, hbh salt password⟩

/-- Witness for C2 at a concrete registration with a fixed-point-free hash. -/
theorem claim_C2_witness :
    Json.hasKey "password" (registerResponseJson (fun t => t.secret)
      (register (fun _ => true) (fun s p => "#" ++ s ++ p) "" "k" 1 0 []
        ⟨some "A", some "a@b.c", some "secret"⟩).1) = false :=
  (claim_C2 (fun _ => true) (fun s p => "#" ++ s ++ p) (fun _ _ => true)
    (fun t => t.secret) "" "k" 1 0 [] ⟨some "A", some "a@b.c", some "secret"⟩ none none
    (fun s p h => by
      have hl := congrArg String.length h
      rw [String.length_append, String.length_append] at hl
      have h1 : ("#" : String).length = 1 := rfl
      rw [h1] at hl
      omega)).1

/-- C6: registration fails with 400 exactly when a field is missing or empty,
the email fails format validation, the password is shorter than 6 characters,
or the email is already registered; otherwise it appends a user whose password
field holds the salted hash and returns the new user with a 7-day token. -/
theorem claim_C6 (isEmail : String → Bool) (bhash : String → String → String)
    (salt secret : String) (newId now : Nat) (users : List StoredUser)
    (b : RegisterBody) :
    ((register isEmail bhash salt secret newId now users b).1.isBadRequest = true ↔
      (truthyStr b.name = false ∨ truthyStr b.email = false ∨
       truthyStr b.password = false ∨
       (∃ em, b.email = some em ∧ isEmail em = false) ∨
       (∃ p, b.password = some p ∧ p.length < 6) ∨
       (∃ em, b.email = some em ∧ users.any (fun u => u.email == em) = true))) ∧
    (∀ name email password, b = ⟨some name, some email, some password⟩ →
      name ≠ "" → email ≠ "" → password ≠ "" →
      isEmail email = true → ¬(password.length < 6) →
      users.any (fun u => u.email == email) = false →
      register isEmail bhash salt secret newId now users b =
        (.created ⟨newId, secret, "7d"⟩
          ⟨newId, name, email, bhash salt password, "en", none, now⟩,
         users ++ [⟨newId, name, email, bhash salt password, "en", none, now⟩])) := by
  constructor
  · rcases b with ⟨bn, be, bp⟩
    cases bn with
    | none => simp [register, truthyStr, RegisterResult.isBadRequest]
    | some name =>
      cases be with
      | none => simp [register, truthyStr, RegisterResult.isBadRequest]
      | some email =>
        cases bp with
        | none => simp [register, truthyStr, RegisterResult.isBadRequest]
        | some password =>
          by_cases h1 : (name == "" || email == "" || password == "") = true
          · constructor
            · intro _
              simp only [Bool.or_eq_true, beq_iff_eq] at h1
              rcases h1 with (h | h) | h
              · exact Or.inl (by simp [truthyStr, h])
              · exact Or.inr (Or.inl (by simp [truthyStr, h]))
              · exact Or.inr (Or.inr (Or.inl (by simp [truthyStr, h])))
            · intro _
              simp [register, h1, RegisterResult.isBadRequest]
          · rw [Bool.not_eq_true] at h1
            have hfields := h1
            simp only [Bool.or_eq_false_iff, beq_eq_false_iff_ne, ne_eq] at hfields
            by_cases h2 : isEmail email = true
            · by_cases h3 : password.length < 6
              · constructor
                · intro _
                  exact Or.inr (Or.inr (Or.inr (Or.inr (Or.inl ⟨password, rfl, h3⟩))))
                · intro _
                  simp [register, h1, h2, h3, RegisterResult.isBadRequest]
              · by_cases h4 : users.any (fun u => u.email == email) = true
                · constructor
                  · intro _
                    exact Or.inr (Or.inr (Or.inr (Or.inr (Or.inr ⟨email, rfl, h4⟩))))
                  · intro _
                    simp [register, h1, h2, h3, h4, RegisterResult.isBadRequest]
                · rw [Bool.not_eq_true] at h4
                  constructor
                  · intro hbad
                    simp [register, h1, h2, h3, h4, RegisterResult.isBadRequest] at hbad
                  · intro hR
                    exfalso
                    rcases hR with h | h | h | ⟨em, hem, hie⟩ | ⟨p, hp, hlen⟩ | ⟨em, hem, hx⟩
                    · simp [truthyStr] at h; exact hfields.1.1 h
                    · simp [truthyStr] at h; exact hfields.1.2 h
                    · simp [truthyStr] at h; exact hfields.2 h
                    · cases hem; rw [h2] at hie; cases hie
                    · cases hp; exact h3 hlen
                    · cases hem; rw [h4] at hx; cases hx
            · rw [Bool.not_eq_true] at h2
              constructor
              · intro _
                exact Or.inr (Or.inr (Or.inr (Or.inl ⟨email, rfl, h2⟩)))
              · intro _
                simp [register, h1, h2, RegisterResult.isBadRequest]
  · intro name email password hb hn he hp hie hlen hex
    subst hb
    have h1 : (name == "" || email == "" || password == "") = false := by
      simp [hn, he, hp]
    simp [register, h1, hie, hlen, hex, jwtSign]

/-- Counterexample to C7 as stated: both coordinates are present in the request
(latitude 0, longitude 1), yet the handler answers BadRequest, so the failure
condition is not "exactly when latitude or longitude is absent". -/
theorem claim_C7_counterexample :
    (LocationBody.latitude ⟨some 0, some 1, none⟩).isSome = true ∧
    (LocationBody.longitude ⟨some 0, some 1, none⟩).isSome = true ∧
    (setLocation (fun _ => "") 0 1 ⟨some 0, some 1, none⟩ []).1 =
      .badRequest "Latitude and longitude are required" := by
  refine ⟨rfl, rfl, ?_⟩
  simp [setLocation]

/-- C7 (amended): setting the location fails with BadRequest exactly when
latitude or longitude is absent or zero (JavaScript-falsy); on success it
stores latitude, longitude and the timestamp, the address defaulting to the
coordinates joined by a comma when it is absent or empty. -/
theorem claim_C7 (render : Rat → String) (now uid : Nat) (b : LocationBody)
    (users : List StoredUser) :
    (((setLocation render now uid b users).1 =
        .badRequest "Latitude and longitude are required") ↔
      (b.latitude = none ∨ b.latitude = some 0 ∨
       b.longitude = none ∨ b.longitude = some 0)) ∧
    (∀ la lo, b.latitude = some la → b.longitude = some lo → la ≠ 0 → lo ≠ 0 →
      ((b.address = none ∨ b.address = some "") →
        (setLocation render now uid b users).1 =
          .ok ⟨la, lo, render la ++ ", " ++ render lo, now⟩) ∧
      (∀ a, b.address = some a → a ≠ "" →
        (setLocation render now uid b users).1 = .ok ⟨la, lo, a, now⟩)) := by
  rcases b with ⟨bla, blo, bad⟩
  cases bla with
  | none =>
    refine ⟨by simp [setLocation], ?_⟩
    intro la lo h1 _ _ _
    cases h1
  | some la =>
    cases blo with
    | none =>
      refine ⟨by simp [setLocation], ?_⟩
      intro la' lo h1 h2 _ _
      cases h2
    | some lo =>
      by_cases hla : la = 0
      · subst hla
        refine ⟨?_, ?_⟩
        · simp [setLocation]
        · intro la' lo' h1 h2 hne1 _
          cases h1
          exact absurd rfl hne1
      · by_cases hlo : lo = 0
        · subst hlo
          refine ⟨?_, ?_⟩
          · simp [setLocation, hla]
          · intro la' lo' h1 h2 _ hne2
            cases h2
            exact absurd rfl hne2
        · have hcond : (la == 0 || lo == 0) = false := by simp [hla, hlo]
          refine ⟨?_, ?_⟩
          · simp [setLocation, hcond, hla, hlo]
          · intro la' lo' h1 h2 _ _
            cases h1
            cases h2
            refine ⟨?_, ?_⟩
            · intro haddr
              rcases haddr with h | h <;> cases h <;>
                simp [setLocation, hcond]
            · intro a ha hne
              cases ha
              simp [setLocation, hcond, hne]

/-- Witness for C7: a successful location update with both coordinates nonzero
and no address, storing the defaulted address. -/
theorem claim_C7_witness :
    (setLocation (fun _ => "R") 9 1 ⟨some 2, some 3, none⟩ []).1 =
      .ok ⟨2, 3, "R" ++ ", " ++ "R", 9⟩ :=
  ((claim_C7 (fun _ => "R") 9 1 ⟨some 2, some 3, none⟩ []).2 2 3 rfl rfl
    (by decide) (by decide)).1 (Or.inl rfl)

/-- Witness for C6: a concrete valid registration creating the stored user with
the hashed password and a 7-day token. -/
theorem claim_C6_witness :
    register (fun _ => true) (fun s p => "#" ++ s ++ p) "" "k" 1 0 []
      ⟨some "A", some "a@b.c", some "secret"⟩ =
      (.created ⟨1, "k", "7d"⟩ ⟨1, "A", "a@b.c", "#secret", "en", none, 0⟩,
       [⟨1, "A", "a@b.c", "#secret", "en", none, 0⟩]) := by
  rw [(claim_C6 (fun _ => true) (fun s p => "#" ++ s ++ p) "" "k" 1 0 []
    ⟨some "A", some "a@b.c", some "secret"⟩).2 "A" "a@b.c" "secret" rfl
    (by decide) (by decide) (by decide) rfl (by decide) rfl]
  rfl

end ChatServer
